import Mathlib

/-! pktlog: radiotap frame handling and chip dispatch (`src/pktlog/main.c`).

Shallow embedding of `pkt_handle`, `pkt_compile`, `open_offline`, `open_online`
and `main`, with theorems about frame rejection, decoder dispatch, the payload
handed to the chip decoders and the capture loop.

Conventions of the embedding:

* the bytes reachable through the pointer `pkt` are a function `Nat → Nat`
  (offset from `pkt` to byte, the byte value being the entry modulo 256); the
  captured length `len` is a separate `int`, exactly as in the C signature, so
  a load at an offset `>= len` is a load outside the captured frame;
* a run of `pkt_handle` is the list of its observable events, in program
  order: byte loads through `rh`, the diagnostic `printf`, the decoder call
  and `pkt_print`;
* the automatic variable `re` is not initialised by `pkt_handle`; its
  indeterminate initial contents are an explicit argument;
* `libradarpkt` (chip constants and the two decoders) and libpcap are not part
  of this source file; they are parameters.
-/

namespace Pktlog

/-- Bytes reachable through `pkt`, indexed by offset; the byte stored at offset
`i` is `m i % 256`. -/
abbrev Mem := Nat → Nat

/-- The two-complement value of a 32-bit `int` after wrap-around. -/
def int32 (x : Int) : Int := (x + 2147483648) % 4294967296 - 2147483648

/-- Modelled from the spec: `struct radar_entry` of `libradarpkt/pkt.h` (not in
src), with the four fields `pkt_print` reads: a 64-bit timestamp, a frequency,
a signed signal strength and a pulse duration. -/
structure radar_entry where
  re_timestamp : Nat
  re_freq : Nat
  re_rssi : Int
  re_dur : Int
deriving DecidableEq, Repr

/-- Modelled from the spec: what a chip decoder of `libradarpkt` (not in src)
hands back, namely whether it reports success and the contents of `*re` when it
returns (equal to the contents before the call wherever it wrote nothing). -/
structure Decoded where
  ok : Bool
  re : radar_entry
deriving DecidableEq, Repr

/-- A chip decoder `(rh, pkt + off, len, &re)`: the memory behind `rh`, the
payload offset, the remaining length and the contents of `*re` on entry. -/
abbrev Decoder := Mem → Nat → Int → radar_entry → Decoded

/-- The parts of `libradarpkt` used by `main.c`: the two chip constants of
`pkt.h` and the two decoders. None of them is in src; all are parameters. -/
structure Libradarpkt where
  CHIP_AR5416 : Int
  CHIP_AR9280 : Int
  ar5416_radar_decode : Decoder
  ar9280_radar_decode : Decoder

/-- Observable events of a run. -/
inductive Event where
  /-- a byte load through `rh` at the given offset from `pkt` -/
  | load (off : Nat)
  /-- the diagnostic `printf("%s: incorrect version (%d)\n", ...)` -/
  | incorrect_version (v : Nat)
  /-- a call `ar5416_radar_decode(rh, pkt + off, len, &re)` and what it reported -/
  | ar5416_radar_decode (off : Nat) (len : Int) (ok : Bool)
  /-- a call `ar9280_radar_decode(rh, pkt + off, len, &re)` and what it reported -/
  | ar9280_radar_decode (off : Nat) (len : Int) (ok : Bool)
  /-- the record line printed by `pkt_print` -/
  | pkt_print (re : radar_entry)
  /-- the line printed by `usage` -/
  | usage
  /-- a failure message of `open_offline` or `open_online` -/
  | open_failed
  /-- the call `pcap_close(p)` -/
  | pcap_close
deriving DecidableEq, Repr

/-- Modelled from the spec: the field `it_version` of
`struct ieee80211_radiotap_header` (`net80211/ieee80211_radiotap.h`, not in
src; its layout is a version byte, a pad byte, the 2-byte length and the 4-byte
presence mask): one byte at offset 0. -/
def it_version (pkt : Mem) : Nat := pkt 0 % 256

/-- Modelled from the spec: the field `it_len` of
`struct ieee80211_radiotap_header` (not in src): two bytes at offsets 2 and 3.
`main.c` loads it in host byte order without conversion; the host is taken to
be little-endian. -/
def it_len (pkt : Mem) : Nat := pkt 2 % 256 + 256 * (pkt 3 % 256)

/-- The function `pkt_print`: one record line. -/
def pkt_print (re : radar_entry) : List Event := [Event.pkt_print re]

/-- The function `pkt_handle(chip, pkt, len)`. The last argument is the
indeterminate initial contents of the automatic variable `re`. -/
def pkt_handle (L : Libradarpkt) (chip : Int) (pkt : Mem) (len : Int)
    (re : radar_entry) : List Event :=
  if it_version pkt ≠ 0 then
    [Event.load 0, Event.incorrect_version (it_version pkt)]
  else if chip = L.CHIP_AR5416 then
    let d := L.ar5416_radar_decode pkt (it_len pkt) (int32 (len - it_len pkt)) re
    [Event.load 0, Event.load 2, Event.load 3,
      Event.ar5416_radar_decode (it_len pkt) (int32 (len - it_len pkt)) d.ok]
      ++ pkt_print d.re
  else if chip = L.CHIP_AR9280 then
    let d := L.ar9280_radar_decode pkt (it_len pkt) (int32 (len - it_len pkt)) re
    [Event.load 0, Event.load 2, Event.load 3,
      Event.ar9280_radar_decode (it_len pkt) (int32 (len - it_len pkt)) d.ok]
      ++ pkt_print d.re
  else
    [Event.load 0] ++ pkt_print re

/-- One result of `pcap_next_ex(p, &hdr, &pkt)`: its return value `r`, the
frame pointer, `hdr->caplen`, and the indeterminate contents that the automatic
`re` of `pkt_handle` has if the frame is handled. -/
structure Pull where
  r : Int
  pkt : Mem
  caplen : Nat
  re : radar_entry

/-- The `while` loop of `main`: pull results are consumed while `r >= 0`, and a
frame is handled when `r > 0`, with `hdr->caplen` converted to `int`. -/
def main_loop (L : Libradarpkt) (chip : Int) : List Pull → List Event
  | [] => []
  | p :: ps =>
    if 0 ≤ p.r then
      (if 0 < p.r then pkt_handle L chip p.pkt (int32 p.caplen) p.re else [])
        ++ main_loop L chip ps
    else []

/-- The calls into libpcap made while opening a capture (libpcap is external):
the handle returned by `pcap_open_offline` / `pcap_open_live` for a name
(`none` is `NULL`; a handle is the sequence of results `pcap_next_ex` gives on
it) and the return values of the three set-up calls. -/
structure Pcap where
  pcap_open_offline : String → Option (List Pull)
  pcap_open_live : String → Option (List Pull)
  pcap_set_datalink : Int
  pcap_compile : Int
  pcap_setfilter : Int

/-- The function `pkt_compile`. -/
def pkt_compile (P : Pcap) : Int := if P.pcap_compile ≠ 0 then 0 else 1

/-- Outcome of an open function: the process exited (`err`), or a pointer was
returned (`none` is `NULL`). -/
inductive Opened where
  | exited (status : Int)
  | returned (p : Option (List Pull))

/-- The function `open_offline`. -/
def open_offline (P : Pcap) (fname : String) : List Event × Opened :=
  match P.pcap_open_offline fname with
  | none => ([Event.open_failed], Opened.returned none)
  | some p => ([], Opened.returned (some p))

/-- The function `open_online`. -/
def open_online (P : Pcap) (ifname : String) : List Event × Opened :=
  match P.pcap_open_live ifname with
  | none => ([Event.open_failed], Opened.exited 1)
  | some p =>
    if P.pcap_set_datalink ≠ 0 then ([Event.open_failed], Opened.returned none)
    else if pkt_compile P = 0 then ([Event.open_failed], Opened.returned none)
    else if P.pcap_setfilter ≠ 0 then ([Event.open_failed], Opened.returned none)
    else ([], Opened.returned (some p))

/-- The loop and `pcap_close` at the end of `main`, reached with a handle. -/
def main_run (L : Libradarpkt) (chip : Int) (pre : List Event) :
    Opened → List Event × Int
  | Opened.exited s => (pre, s)
  | Opened.returned none => (pre, 255)
  | Opened.returned (some p) => (pre ++ main_loop L chip p ++ [Event.pcap_close], 0)

/-- The part of `main` from `fname = argv[3]` on, reached with the chip value
selected from `argv[1]`: the capture is opened as `argv[2]` says, then the loop
runs. -/
def main_open (L : Libradarpkt) (P : Pcap) (chip : Int) (argv : List String) :
    List Event × Int :=
  if argv.getD 2 "" = "file" then
    main_run L chip (open_offline P (argv.getD 3 "")).1 (open_offline P (argv.getD 3 "")).2
  else if argv.getD 2 "" = "if" then
    main_run L chip (open_online P (argv.getD 3 "")).1 (open_online P (argv.getD 3 "")).2
  else ([Event.usage], 255)

/-- The function `main(argc, argv)` with `argc = argv.length`: the events of
the run and the exit status. -/
def main (L : Libradarpkt) (P : Pcap) (argv : List String) : List Event × Int :=
  if argv.length < 4 then ([Event.usage], 255)
  else if argv.getD 1 "" = "ar5416" then main_open L P L.CHIP_AR5416 argv
  else if argv.getD 1 "" = "ar9280" then main_open L P L.CHIP_AR9280 argv
  else ([Event.usage], 255)

/-! ## Observations on a run -/

/-- The records printed by `pkt_print` during a run, in order. -/
def records : List Event → List radar_entry
  | [] => []
  | Event.pkt_print re :: t => re :: records t
  | _ :: t => records t

/-- The offsets of the byte loads made through `rh` during a run, in order. -/
def loads : List Event → List Nat
  | [] => []
  | Event.load i :: t => i :: loads t
  | _ :: t => loads t

/-- Number of calls of `ar5416_radar_decode` in a run. -/
def calls_ar5416 : List Event → Nat
  | [] => 0
  | Event.ar5416_radar_decode _ _ _ :: t => calls_ar5416 t + 1
  | _ :: t => calls_ar5416 t

/-- Number of calls of `ar9280_radar_decode` in a run. -/
def calls_ar9280 : List Event → Nat
  | [] => 0
  | Event.ar9280_radar_decode _ _ _ :: t => calls_ar9280 t + 1
  | _ :: t => calls_ar9280 t

/-- The payload offset and remaining length of every decoder call of a run
(either decoder), in order. -/
def decoder_args : List Event → List (Nat × Int)
  | [] => []
  | Event.ar5416_radar_decode off len _ :: t => (off, len) :: decoder_args t
  | Event.ar9280_radar_decode off len _ :: t => (off, len) :: decoder_args t
  | _ :: t => decoder_args t

/-- What the decoders reported, for every decoder call of a run, in order. -/
def decoder_reports : List Event → List Bool
  | [] => []
  | Event.ar5416_radar_decode _ _ ok :: t => ok :: decoder_reports t
  | Event.ar9280_radar_decode _ _ ok :: t => ok :: decoder_reports t
  | _ :: t => decoder_reports t

/-- The pull results whose frame the loop of `main` hands to `pkt_handle`:
those with `r > 0` that come before the first negative result. -/
def delivered (pulls : List Pull) : List Pull :=
  (pulls.takeWhile (fun p => decide (0 ≤ p.r))).filter (fun p => decide (0 < p.r))

/-! ## Concrete inputs -/

/-- The buffer holding the given bytes at offsets 0, 1, ... and zero bytes
behind them. -/
def buffer (bytes : List Nat) : Mem := fun i => bytes.getD i 0

/-- A sample decoder in the style of the pulse decoders: with fewer than one
payload byte it reports failure and leaves the record untouched; otherwise it
reports success and writes a record whose duration is the last payload byte. -/
def sample_decode (freq : Nat) : Decoder := fun pkt off len re =>
  if len < 1 then { ok := false, re := re }
  else { ok := true,
         re := { re_timestamp := 0, re_freq := freq, re_rssi := 0,
                 re_dur := Int.ofNat (pkt (off + (len - 1).toNat) % 256) } }

/-- A sample library: chip constants 1 and 2 and two sample decoders. -/
def sample_lib : Libradarpkt :=
  { CHIP_AR5416 := 1, CHIP_AR9280 := 2,
    ar5416_radar_decode := sample_decode 5416,
    ar9280_radar_decode := sample_decode 9280 }

/-- An all-zero record, standing for one possible content of the stack. -/
def zero_entry : radar_entry :=
  { re_timestamp := 0, re_freq := 0, re_rssi := 0, re_dur := 0 }

/-- Another possible content of the stack. -/
def stale_entry : radar_entry :=
  { re_timestamp := 77, re_freq := 5260, re_rssi := -3, re_dur := 9 }

/-- A well-formed frame: version 0, declared header length 8, and one payload
byte (the pulse duration) behind the 8-byte header; 9 bytes are captured. -/
def good_frame (dur : Nat) : Mem := buffer [0, 0, 8, 0, 0, 0, 0, 0, dur]

/-- A truncated frame: version 0 and declared header length 8, of which only
4 bytes are captured. -/
def short_frame : Mem := buffer [0, 0, 8, 0]

/-- A garbage frame whose first byte is 1. -/
def bad_version_frame : Mem := buffer [1, 0, 8, 0, 0, 0, 0, 0, 4]

/-- A pull result `r = 1` delivering the given buffer with the given captured
length; the stack slot of `re` holds the stale record. -/
def deliver (pkt : Mem) (caplen : Nat) : Pull :=
  { r := 1, pkt := pkt, caplen := caplen, re := stale_entry }

/-- The end-of-stream result of `pcap_next_ex` (`-2`). -/
def end_of_stream : Pull :=
  { r := -2, pkt := buffer [], caplen := 0, re := stale_entry }

/-- Five frames, then end of stream: frames 1, 3, 5 are well-formed (durations
1, 3, 5) and frames 2, 4 are truncated (4 bytes captured of a declared 8-byte
header). -/
def stream_with_truncated : List Pull :=
  [deliver (good_frame 1) 9, deliver short_frame 4, deliver (good_frame 3) 9,
   deliver short_frame 4, deliver (good_frame 5) 9, end_of_stream]

/-- Five frames, then end of stream: frames 1, 3, 5 are well-formed (durations
1, 3, 5) and frames 2, 4 are garbage with first byte 1. -/
def stream_with_bad_version : List Pull :=
  [deliver (good_frame 1) 9, deliver bad_version_frame 9, deliver (good_frame 3) 9,
   deliver bad_version_frame 9, deliver (good_frame 5) 9, end_of_stream]

/-- A decoder is determined by the frame when its result depends only on the
payload offset, the remaining length and the bytes in front of the end of the
payload, and neither on bytes behind it nor on the contents of `*re` on entry. -/
def frame_determined (d : Decoder) : Prop :=
  ∀ (m1 m2 : Mem) (off : Nat) (len : Int) (r1 r2 : radar_entry),
    (∀ i : Nat, (i : Int) < off + len → m1 i = m2 i) → d m1 off len r1 = d m2 off len r2

/-- A sample decoder that always writes the whole record: the duration is the
last payload byte, or 0 when there is no payload byte, in which case it reports
failure. -/
def writing_decode (freq : Nat) : Decoder := fun pkt off len _ =>
  if len < 1 then
    { ok := false, re := { re_timestamp := 0, re_freq := freq, re_rssi := 0, re_dur := 0 } }
  else
    { ok := true,
      re := { re_timestamp := 0, re_freq := freq, re_rssi := 0,
              re_dur := Int.ofNat (pkt (off + (len - 1).toNat) % 256) } }

/-- A sample library whose decoders always write the whole record. -/
def writing_lib : Libradarpkt :=
  { CHIP_AR5416 := 1, CHIP_AR9280 := 2,
    ar5416_radar_decode := writing_decode 5416,
    ar9280_radar_decode := writing_decode 9280 }

/-- A sample libpcap: every open succeeds with the stream of five frames two of
which are truncated, and every set-up call returns 0. -/
def sample_pcap : Pcap :=
  { pcap_open_offline := fun _ => some stream_with_truncated,
    pcap_open_live := fun _ => some stream_with_truncated,
    pcap_set_datalink := 0, pcap_compile := 0, pcap_setfilter := 0 }

/-- The well-formed frame with duration byte 7 followed in memory by a byte 99
that is not part of the 9 captured bytes. -/
def good_frame_then_junk : Mem := buffer [0, 0, 8, 0, 0, 0, 0, 0, 7, 99]

/-- The capture handle `pulls` is what `main` gets for the command line `argv`:
either `argv[2]` is `file` and `pcap_open_offline(argv[3])` returns it, or
`argv[2]` is `if`, `pcap_open_live(argv[3])` returns it and the three set-up
calls (`pcap_set_datalink`, `pcap_compile`, `pcap_setfilter`) return 0. -/
def obtains (P : Pcap) (argv : List String) (pulls : List Pull) : Prop :=
  (argv.getD 2 "" = "file" ∧ P.pcap_open_offline (argv.getD 3 "") = some pulls) ∨
  (argv.getD 2 "" ≠ "file" ∧ argv.getD 2 "" = "if" ∧
    P.pcap_open_live (argv.getD 3 "") = some pulls ∧
    P.pcap_set_datalink = 0 ∧ P.pcap_compile = 0 ∧ P.pcap_setfilter = 0)

end Pktlog

namespace Pktlog

/-! ## Helper lemmas -/

theorem int32_of_range (x : Int) (h0 : -2147483648 ≤ x) (h1 : x < 2147483648) :
    int32 x = x := by
  unfold int32
  rw [Int.emod_eq_of_lt (by omega) (by omega)]
  omega

theorem it_len_le (pkt : Mem) : it_len pkt ≤ 65535 := by
  unfold it_len
  have h2 : pkt 2 % 256 < 256 := Nat.mod_lt _ (by decide)
  have h3 : pkt 3 % 256 < 256 := Nat.mod_lt _ (by decide)
  omega

theorem records_append (a b : List Event) : records (a ++ b) = records a ++ records b := by
  induction a with
  | nil => rfl
  | cons e t ih => cases e <;> simp [records, ih]

theorem main_loop_eq_flatMap (L : Libradarpkt) (chip : Int) (pulls : List Pull) :
    main_loop L chip pulls =
      (delivered pulls).flatMap (fun p => pkt_handle L chip p.pkt (int32 p.caplen) p.re) := by
  induction pulls with
  | nil => rfl
  | cons p ps ih =>
    unfold delivered at ih ⊢
    by_cases h0 : 0 ≤ p.r
    · by_cases h1 : 0 < p.r
      · simp [main_loop, h0, h1, ih, List.takeWhile_cons, List.filter_cons]
      · simp [main_loop, h0, h1, ih, List.takeWhile_cons, List.filter_cons]
    · simp [main_loop, h0, List.takeWhile_cons]

theorem pkt_handle_count_load_zero (L : Libradarpkt) (chip : Int) (pkt : Mem) (len : Int)
    (re : radar_entry) : (pkt_handle L chip pkt len re).count (Event.load 0) = 1 := by
  unfold pkt_handle pkt_print
  split_ifs <;> simp [List.count_cons]

theorem main_loop_count_load_zero (L : Libradarpkt) (chip : Int) (pulls : List Pull) :
    (main_loop L chip pulls).count (Event.load 0) = (delivered pulls).length := by
  induction pulls with
  | nil => rfl
  | cons p ps ih =>
    unfold delivered at ih ⊢
    by_cases h0 : 0 ≤ p.r
    · by_cases h1 : 0 < p.r
      · simp [main_loop, h0, h1, ih, List.takeWhile_cons, List.filter_cons,
          pkt_handle_count_load_zero, Nat.add_comm]
      · simp [main_loop, h0, h1, ih, List.takeWhile_cons, List.filter_cons]
    · simp [main_loop, h0, List.takeWhile_cons]

theorem pkt_handle_run_ar5416 (L : Libradarpkt) (chip : Int) (pkt : Mem) (len : Int)
    (re : radar_entry) (hv : pkt 0 % 256 = 0) (hc : chip = L.CHIP_AR5416) :
    pkt_handle L chip pkt len re =
      [Event.load 0, Event.load 2, Event.load 3,
       Event.ar5416_radar_decode (it_len pkt) (int32 (len - it_len pkt))
         (L.ar5416_radar_decode pkt (it_len pkt) (int32 (len - it_len pkt)) re).ok,
       Event.pkt_print
         (L.ar5416_radar_decode pkt (it_len pkt) (int32 (len - it_len pkt)) re).re] := by
  simp [pkt_handle, it_version, hv, hc, pkt_print]

theorem pkt_handle_run_ar9280 (L : Libradarpkt) (chip : Int) (pkt : Mem) (len : Int)
    (re : radar_entry) (hv : pkt 0 % 256 = 0) (hc : chip = L.CHIP_AR9280)
    (hd : L.CHIP_AR5416 ≠ L.CHIP_AR9280) :
    pkt_handle L chip pkt len re =
      [Event.load 0, Event.load 2, Event.load 3,
       Event.ar9280_radar_decode (it_len pkt) (int32 (len - it_len pkt))
         (L.ar9280_radar_decode pkt (it_len pkt) (int32 (len - it_len pkt)) re).ok,
       Event.pkt_print
         (L.ar9280_radar_decode pkt (it_len pkt) (int32 (len - it_len pkt)) re).re] := by
  have hne : ¬ L.CHIP_AR9280 = L.CHIP_AR5416 := fun h => hd h.symm
  simp [pkt_handle, it_version, hv, hc, hne, pkt_print]

theorem pkt_handle_run_bad_version (L : Libradarpkt) (chip : Int) (pkt : Mem) (len : Int)
    (re : radar_entry) (hv : pkt 0 % 256 ≠ 0) :
    pkt_handle L chip pkt len re = [Event.load 0, Event.incorrect_version (pkt 0 % 256)] := by
  simp [pkt_handle, it_version, hv]

theorem pkt_handle_loads_subset (L : Libradarpkt) (chip : Int) (pkt : Mem) (len : Int)
    (re : radar_entry) :
    0 ∈ loads (pkt_handle L chip pkt len re) ∧
    ∀ i ∈ loads (pkt_handle L chip pkt len re), i = 0 ∨ i = 2 ∨ i = 3 := by
  constructor
  · unfold pkt_handle pkt_print
    split_ifs <;> simp [loads]
  · unfold pkt_handle pkt_print
    split_ifs <;> simp [loads]

theorem open_offline_cases (P : Pcap) (fname : String) :
    (∃ pulls, P.pcap_open_offline fname = some pulls ∧
      open_offline P fname = ([], Opened.returned (some pulls))) ∨
    open_offline P fname = ([Event.open_failed], Opened.returned none) := by
  unfold open_offline
  cases h : P.pcap_open_offline fname with
  | none => exact Or.inr rfl
  | some pulls => exact Or.inl ⟨pulls, rfl, rfl⟩

theorem open_online_cases (P : Pcap) (ifname : String) :
    (∃ pulls, (P.pcap_open_live ifname = some pulls ∧
        P.pcap_set_datalink = 0 ∧ P.pcap_compile = 0 ∧ P.pcap_setfilter = 0) ∧
      open_online P ifname = ([], Opened.returned (some pulls))) ∨
    open_online P ifname = ([Event.open_failed], Opened.exited 1) ∨
    open_online P ifname = ([Event.open_failed], Opened.returned none) := by
  unfold open_online
  cases h : P.pcap_open_live ifname with
  | none => exact Or.inr (Or.inl rfl)
  | some pulls =>
    by_cases hd : P.pcap_set_datalink = 0
    · by_cases hcomp : P.pcap_compile = 0
      · by_cases hs : P.pcap_setfilter = 0
        · exact Or.inl ⟨pulls, ⟨rfl, hd, hcomp, hs⟩, by simp [hd, hcomp, hs, pkt_compile]⟩
        · exact Or.inr (Or.inr (by simp [hd, hcomp, hs, pkt_compile]))
      · exact Or.inr (Or.inr (by simp [hd, hcomp, pkt_compile]))
    · exact Or.inr (Or.inr (by simp [hd]))

theorem main_open_cases (L : Libradarpkt) (P : Pcap) (chip : Int) (argv : List String) :
    (∃ pulls, obtains P argv pulls ∧
      main_open L P chip argv = (main_loop L chip pulls ++ [Event.pcap_close], 0)) ∨
    (loads (main_open L P chip argv).1 = [] ∧ records (main_open L P chip argv).1 = []) := by
  unfold main_open
  by_cases hf : argv.getD 2 "" = "file"
  · rw [if_pos hf]
    rcases open_offline_cases P (argv.getD 3 "") with ⟨pulls, h, ho⟩ | ho
    · rw [ho]
      exact Or.inl ⟨pulls, Or.inl ⟨hf, h⟩, rfl⟩
    · rw [ho]
      exact Or.inr ⟨rfl, rfl⟩
  · rw [if_neg hf]
    by_cases hi : argv.getD 2 "" = "if"
    · rw [if_pos hi]
      rcases open_online_cases P (argv.getD 3 "") with ⟨pulls, ⟨h, hd, hcomp, hs⟩, ho⟩ | ho | ho
      · rw [ho]
        exact Or.inl ⟨pulls, Or.inr ⟨hf, hi, h, hd, hcomp, hs⟩, rfl⟩
      · rw [ho]
        exact Or.inr ⟨rfl, rfl⟩
      · rw [ho]
        exact Or.inr ⟨rfl, rfl⟩
    · rw [if_neg hi]
      exact Or.inr ⟨rfl, rfl⟩

theorem main_cases (L : Libradarpkt) (P : Pcap) (argv : List String) :
    (∃ pulls, obtains P argv pulls ∧ 4 ≤ argv.length ∧
      ((argv.getD 1 "" = "ar5416" ∧
          main L P argv = (main_loop L L.CHIP_AR5416 pulls ++ [Event.pcap_close], 0)) ∨
       (argv.getD 1 "" = "ar9280" ∧
          main L P argv = (main_loop L L.CHIP_AR9280 pulls ++ [Event.pcap_close], 0)))) ∨
    (loads (main L P argv).1 = [] ∧ records (main L P argv).1 = []) := by
  unfold main
  by_cases hlen : argv.length < 4
  · rw [if_pos hlen]
    exact Or.inr ⟨rfl, rfl⟩
  · rw [if_neg hlen]
    by_cases h5 : argv.getD 1 "" = "ar5416"
    · rw [if_pos h5]
      rcases main_open_cases L P L.CHIP_AR5416 argv with ⟨pulls, ho, h⟩ | h
      · exact Or.inl ⟨pulls, ho, by omega, Or.inl ⟨h5, h⟩⟩
      · exact Or.inr h
    · rw [if_neg h5]
      by_cases h9 : argv.getD 1 "" = "ar9280"
      · rw [if_pos h9]
        rcases main_open_cases L P L.CHIP_AR9280 argv with ⟨pulls, ho, h⟩ | h
        · exact Or.inl ⟨pulls, ho, by omega, Or.inr ⟨h9, h⟩⟩
        · exact Or.inr h
      · rw [if_neg h9]
        exact Or.inr ⟨rfl, rfl⟩

theorem records_pkt_handle (L : Libradarpkt) (chip : Int) (pkt : Mem) (len : Int)
    (re : radar_entry) (hc : chip = L.CHIP_AR5416 ∨ chip = L.CHIP_AR9280) :
    records (pkt_handle L chip pkt len re) =
      if pkt 0 % 256 = 0 then
        [if chip = L.CHIP_AR5416 then
            (L.ar5416_radar_decode pkt (it_len pkt) (int32 (len - it_len pkt)) re).re
          else (L.ar9280_radar_decode pkt (it_len pkt) (int32 (len - it_len pkt)) re).re]
      else [] := by
  by_cases hv : pkt 0 % 256 = 0
  · by_cases h5 : chip = L.CHIP_AR5416
    · simp [pkt_handle, it_version, hv, h5, pkt_print, records]
    · have h9 : chip = L.CHIP_AR9280 := hc.resolve_left h5
      have hne : ¬ L.CHIP_AR9280 = L.CHIP_AR5416 := fun h => h5 (h9.trans h)
      simp [pkt_handle, it_version, hv, h9, hne, pkt_print, records]
  · simp [pkt_handle, it_version, hv, records]

theorem writing_decode_frame_determined (freq : Nat) : frame_determined (writing_decode freq) := by
  intro m1 m2 off len r1 r2 h
  unfold writing_decode
  by_cases hl : len < 1
  · simp [hl]
  · have hidx : ((off + (len - 1).toNat : Nat) : Int) < off + len := by omega
    rw [if_neg hl, if_neg hl, h _ hidx]

/-! ## Rejection on the version byte -/

/-- C2: a frame whose first byte (the version field) is not 0 is rejected
whatever the chip selection, the length and the other bytes are: the run is
the load of byte 0 and the diagnostic, no chip decoder is invoked and no pulse
record is emitted. -/
theorem pkt_handle_nonzero_version (L : Libradarpkt) (chip : Int) (pkt : Mem) (len : Int)
    (re : radar_entry) (hv : pkt 0 % 256 ≠ 0) :
    pkt_handle L chip pkt len re = [Event.load 0, Event.incorrect_version (pkt 0 % 256)] ∧
    calls_ar5416 (pkt_handle L chip pkt len re) = 0 ∧
    calls_ar9280 (pkt_handle L chip pkt len re) = 0 ∧
    records (pkt_handle L chip pkt len re) = [] := by
  have h : pkt_handle L chip pkt len re =
      [Event.load 0, Event.incorrect_version (pkt 0 % 256)] := by
    simp [pkt_handle, it_version, hv]
  rw [h]
  exact ⟨rfl, rfl, rfl, rfl⟩

/-- Witness for C2: the garbage frame with first byte 1, under chip 1. -/
theorem pkt_handle_nonzero_version_witness :
    bad_version_frame 0 % 256 ≠ 0 ∧
    pkt_handle sample_lib 1 bad_version_frame 9 zero_entry =
      [Event.load 0, Event.incorrect_version (bad_version_frame 0 % 256)] ∧
    calls_ar5416 (pkt_handle sample_lib 1 bad_version_frame 9 zero_entry) = 0 ∧
    calls_ar9280 (pkt_handle sample_lib 1 bad_version_frame 9 zero_entry) = 0 ∧
    records (pkt_handle sample_lib 1 bad_version_frame 9 zero_entry) = [] :=
  ⟨by decide, pkt_handle_nonzero_version sample_lib 1 bad_version_frame 9 zero_entry (by decide)⟩

/-! ## Dispatch -/

/-- C4: on a version-0 frame, with the two chip constants distinct,
`chip = CHIP_AR5416` invokes `ar5416_radar_decode` exactly once and
`ar9280_radar_decode` never, `chip = CHIP_AR9280` invokes `ar9280_radar_decode`
exactly once and `ar5416_radar_decode` never, and the one record emitted is the
contents of `re` as the selected decoder left it. -/
theorem pkt_handle_dispatch (L : Libradarpkt) (chip : Int) (pkt : Mem) (len : Int)
    (re : radar_entry) (hv : pkt 0 % 256 = 0) (hd : L.CHIP_AR5416 ≠ L.CHIP_AR9280) :
    (chip = L.CHIP_AR5416 →
      calls_ar5416 (pkt_handle L chip pkt len re) = 1 ∧
      calls_ar9280 (pkt_handle L chip pkt len re) = 0 ∧
      records (pkt_handle L chip pkt len re) =
        [(L.ar5416_radar_decode pkt (it_len pkt) (int32 (len - it_len pkt)) re).re]) ∧
    (chip = L.CHIP_AR9280 →
      calls_ar9280 (pkt_handle L chip pkt len re) = 1 ∧
      calls_ar5416 (pkt_handle L chip pkt len re) = 0 ∧
      records (pkt_handle L chip pkt len re) =
        [(L.ar9280_radar_decode pkt (it_len pkt) (int32 (len - it_len pkt)) re).re]) := by
  constructor
  · intro hc
    simp [pkt_handle, it_version, hv, hc, pkt_print, calls_ar5416, calls_ar9280, records]
  · intro hc
    have hne : ¬ L.CHIP_AR9280 = L.CHIP_AR5416 := fun h => hd h.symm
    simp [pkt_handle, it_version, hv, hc, hne, pkt_print, calls_ar5416, calls_ar9280, records]

/-- Witness for C4: the well-formed frame with duration byte 7 under the sample
library, whose chip constants are 1 and 2. -/
theorem pkt_handle_dispatch_witness :
    (good_frame 7 0 % 256 = 0 ∧ sample_lib.CHIP_AR5416 ≠ sample_lib.CHIP_AR9280) ∧
    records (pkt_handle sample_lib 1 (good_frame 7) 9 stale_entry) = [⟨0, 5416, 0, 7⟩] ∧
    records (pkt_handle sample_lib 2 (good_frame 7) 9 stale_entry) = [⟨0, 9280, 0, 7⟩] :=
  ⟨⟨by decide, by decide⟩,
   ((pkt_handle_dispatch sample_lib 1 (good_frame 7) 9 stale_entry (by decide) (by decide)).1
      (by decide)).2.2.trans (by decide),
   ((pkt_handle_dispatch sample_lib 2 (good_frame 7) 9 stale_entry (by decide) (by decide)).2
      (by decide)).2.2.trans (by decide)⟩

/-! ## The payload handed to the decoder -/

/-- C8: on a version-0 frame of captured length `len` (an `int` that is a
length, `0 ≤ len ≤ INT_MAX`) and with either supported chip, there is exactly
one decoder call; its payload pointer is `pkt + L` and its length argument is
`len - L`, where `L` is the 16-bit little-endian value of bytes 2 and 3, so
offset plus remaining length is `len`. -/
theorem pkt_handle_payload (L : Libradarpkt) (chip : Int) (pkt : Mem) (len : Int)
    (re : radar_entry) (hv : pkt 0 % 256 = 0)
    (hc : chip = L.CHIP_AR5416 ∨ chip = L.CHIP_AR9280)
    (h0 : 0 ≤ len) (h1 : len ≤ 2147483647) :
    decoder_args (pkt_handle L chip pkt len re) =
      [(pkt 2 % 256 + 256 * (pkt 3 % 256),
        len - ((pkt 2 % 256 + 256 * (pkt 3 % 256) : Nat) : Int))] ∧
    ((pkt 2 % 256 + 256 * (pkt 3 % 256) : Nat) : Int) +
      (len - ((pkt 2 % 256 + 256 * (pkt 3 % 256) : Nat) : Int)) = len := by
  have hle := it_len_le pkt
  have hr : int32 (len - it_len pkt) = len - it_len pkt :=
    int32_of_range _ (by omega) (by omega)
  refine ⟨?_, by omega⟩
  change decoder_args (pkt_handle L chip pkt len re) = [(it_len pkt, len - (it_len pkt : Int))]
  by_cases h5 : chip = L.CHIP_AR5416
  · simp [pkt_handle, it_version, hv, h5, pkt_print, decoder_args, hr]
  · have h9 : chip = L.CHIP_AR9280 := hc.resolve_left h5
    have hne : ¬ L.CHIP_AR9280 = L.CHIP_AR5416 := fun h => h5 (h9.trans h)
    simp [pkt_handle, it_version, hv, h9, hne, pkt_print, decoder_args, hr]

/-- Witness for C8: the well-formed 9-byte frame with declared header length 8
under chip 2; the decoder gets offset 8 and remaining length 1. -/
theorem pkt_handle_payload_witness :
    (good_frame 7 0 % 256 = 0 ∧
      ((2 : Int) = sample_lib.CHIP_AR5416 ∨ (2 : Int) = sample_lib.CHIP_AR9280) ∧
      (0 : Int) ≤ 9 ∧ (9 : Int) ≤ 2147483647) ∧
    decoder_args (pkt_handle sample_lib 2 (good_frame 7) 9 zero_entry) = [(8, 1)] :=
  ⟨⟨by decide, by decide, by decide, by decide⟩,
   (pkt_handle_payload sample_lib 2 (good_frame 7) 9 zero_entry (by decide) (by decide)
     (by decide) (by decide)).1.trans (by decide)⟩

/-! ## The capture loop -/

/-- C10: for every sequence of pull results the run of the loop of `main` is
the concatenation, in arrival order, of one run of `pkt_handle`, with the one
configured chip value, for each result with `r > 0` that comes before the first
negative result; results with `r = 0` contribute nothing, nothing after the
first negative result is handled, and the number of frames handled (each run of
`pkt_handle` loads byte 0 exactly once) is the number of such results, without
any bound on it and whatever `pkt_handle` did on earlier frames. -/
theorem main_loop_handles_each_delivered_frame (L : Libradarpkt) (chip : Int)
    (pulls : List Pull) :
    main_loop L chip pulls =
      ((pulls.takeWhile (fun p => decide (0 ≤ p.r))).filter (fun p => decide (0 < p.r))).flatMap
        (fun p => pkt_handle L chip p.pkt (int32 p.caplen) p.re) ∧
    (main_loop L chip pulls).count (Event.load 0) =
      ((pulls.takeWhile (fun p => decide (0 ≤ p.r))).filter
        (fun p => decide (0 < p.r))).length :=
  ⟨main_loop_eq_flatMap L chip pulls, main_loop_count_load_zero L chip pulls⟩

end Pktlog

namespace Pktlog

/-! ## Frames whose declared header length exceeds the captured length -/

/-- C1, counterexample: the truncated frame (version 0, declared header length
8, captured length 4) is not rejected under either chip selection: the selected
decoder is invoked and a record is emitted. -/
theorem truncated_header_not_rejected :
    (4 : Int) < it_len short_frame ∧
    calls_ar5416 (pkt_handle sample_lib 1 short_frame 4 stale_entry) = 1 ∧
    records (pkt_handle sample_lib 1 short_frame 4 stale_entry) = [stale_entry] ∧
    calls_ar9280 (pkt_handle sample_lib 2 short_frame 4 stale_entry) = 1 ∧
    records (pkt_handle sample_lib 2 short_frame 4 stale_entry) = [stale_entry] := by
  decide

/-- C1, amended: a version-0 frame whose declared header length exceeds the
captured length `len` (with `0 ≤ len`) is not rejected, for either chip
selection (the two chip constants being distinct): the remaining length
`len - it_len` is negative, and the run is exactly the loads of bytes 0, 2, 3,
then one call of the selected decoder with payload offset `it_len` and that
negative length, then the print of `re` as this decoder left it. -/
theorem pkt_handle_truncated_header (L : Libradarpkt) (chip : Int) (pkt : Mem) (len : Int)
    (re : radar_entry) (hv : pkt 0 % 256 = 0) (h0 : 0 ≤ len) (hlt : len < it_len pkt) :
    len - it_len pkt < 0 ∧
    (chip = L.CHIP_AR5416 →
      pkt_handle L chip pkt len re =
        [Event.load 0, Event.load 2, Event.load 3,
         Event.ar5416_radar_decode (it_len pkt) (len - it_len pkt)
           (L.ar5416_radar_decode pkt (it_len pkt) (len - it_len pkt) re).ok,
         Event.pkt_print (L.ar5416_radar_decode pkt (it_len pkt) (len - it_len pkt) re).re]) ∧
    (chip = L.CHIP_AR9280 → L.CHIP_AR5416 ≠ L.CHIP_AR9280 →
      pkt_handle L chip pkt len re =
        [Event.load 0, Event.load 2, Event.load 3,
         Event.ar9280_radar_decode (it_len pkt) (len - it_len pkt)
           (L.ar9280_radar_decode pkt (it_len pkt) (len - it_len pkt) re).ok,
         Event.pkt_print (L.ar9280_radar_decode pkt (it_len pkt) (len - it_len pkt) re).re]) := by
  have hle := it_len_le pkt
  have hr : int32 (len - it_len pkt) = len - it_len pkt :=
    int32_of_range _ (by omega) (by omega)
  refine ⟨by omega, ?_, ?_⟩
  · intro hc
    have h := pkt_handle_run_ar5416 L chip pkt len re hv hc
    rw [hr] at h
    exact h
  · intro hc hd
    have h := pkt_handle_run_ar9280 L chip pkt len re hv hc hd
    rw [hr] at h
    exact h

/-- Witness for C1 amended: the truncated frame (declared header length 8, 4
bytes captured) under chip 1 and under chip 2; the selected sample decoder is
called with offset 8 and length -4, reports failure, and the stale record is
printed. -/
theorem pkt_handle_truncated_header_witness :
    (short_frame 0 % 256 = 0 ∧ (0 : Int) ≤ 4 ∧ (4 : Int) < it_len short_frame ∧
      (1 : Int) = sample_lib.CHIP_AR5416 ∧ (2 : Int) = sample_lib.CHIP_AR9280 ∧
      sample_lib.CHIP_AR5416 ≠ sample_lib.CHIP_AR9280) ∧
    pkt_handle sample_lib 1 short_frame 4 stale_entry =
      [Event.load 0, Event.load 2, Event.load 3, Event.ar5416_radar_decode 8 (-4) false,
       Event.pkt_print stale_entry] ∧
    pkt_handle sample_lib 2 short_frame 4 stale_entry =
      [Event.load 0, Event.load 2, Event.load 3, Event.ar9280_radar_decode 8 (-4) false,
       Event.pkt_print stale_entry] :=
  ⟨⟨by decide, by decide, by decide, by decide, by decide, by decide⟩,
   ((pkt_handle_truncated_header sample_lib 1 short_frame 4 stale_entry (by decide) (by decide)
      (by decide)).2.1 (by decide)).trans (by decide),
   ((pkt_handle_truncated_header sample_lib 2 short_frame 4 stale_entry (by decide) (by decide)
      (by decide)).2.2 (by decide) (by decide)).trans (by decide)⟩

/-! ## Buffers shorter than the radiotap header -/

/-- C3, counterexample: on the empty buffer (`len = 0`, zero bytes in memory
behind `pkt`) the bytes at offsets 0, 2 and 3 are loaded, all of them at an index
`>= len`, the decoder is invoked and a record is emitted: there is no
truncated-header rejection. -/
theorem empty_buffer_loaded_and_not_rejected :
    loads (pkt_handle sample_lib 1 (buffer []) 0 stale_entry) = [0, 2, 3] ∧
    calls_ar5416 (pkt_handle sample_lib 1 (buffer []) 0 stale_entry) = 1 ∧
    records (pkt_handle sample_lib 1 (buffer []) 0 stale_entry) = [stale_entry] := by
  decide

/-- C3, amended: `pkt_handle` has no minimum-size check and no
truncated-header rejection; what it does never depends on a test of `len`. For
a buffer of any length, the empty one and those shorter than the 8-byte header
included: with a non-zero version byte the run is the load of byte 0 and the
version diagnostic; with version 0 and a supported chip (the chip constants
being distinct) the run is the loads of bytes 0, 2, 3, one call of the selected
decoder with `pkt + it_len` and `(int)(len - it_len)`, and the print of `re` as
this decoder left it. Byte 0 is always loaded and no byte other than those at
offsets 0, 2, 3 is; so no byte at an index `>= len` is loaded when `len ≥ 4`,
and one is when `len ≤ 0`. -/
theorem pkt_handle_loads (L : Libradarpkt) (chip : Int) (pkt : Mem) (len : Int)
    (re : radar_entry) :
    (pkt 0 % 256 ≠ 0 →
      pkt_handle L chip pkt len re = [Event.load 0, Event.incorrect_version (pkt 0 % 256)]) ∧
    (pkt 0 % 256 = 0 → chip = L.CHIP_AR5416 →
      pkt_handle L chip pkt len re =
        [Event.load 0, Event.load 2, Event.load 3,
         Event.ar5416_radar_decode (it_len pkt) (int32 (len - it_len pkt))
           (L.ar5416_radar_decode pkt (it_len pkt) (int32 (len - it_len pkt)) re).ok,
         Event.pkt_print
           (L.ar5416_radar_decode pkt (it_len pkt) (int32 (len - it_len pkt)) re).re]) ∧
    (pkt 0 % 256 = 0 → chip = L.CHIP_AR9280 → L.CHIP_AR5416 ≠ L.CHIP_AR9280 →
      pkt_handle L chip pkt len re =
        [Event.load 0, Event.load 2, Event.load 3,
         Event.ar9280_radar_decode (it_len pkt) (int32 (len - it_len pkt))
           (L.ar9280_radar_decode pkt (it_len pkt) (int32 (len - it_len pkt)) re).ok,
         Event.pkt_print
           (L.ar9280_radar_decode pkt (it_len pkt) (int32 (len - it_len pkt)) re).re]) ∧
    0 ∈ loads (pkt_handle L chip pkt len re) ∧
    (∀ i ∈ loads (pkt_handle L chip pkt len re), i = 0 ∨ i = 2 ∨ i = 3) ∧
    (4 ≤ len → ∀ i ∈ loads (pkt_handle L chip pkt len re), (i : Int) < len) ∧
    (len ≤ 0 → ∃ i ∈ loads (pkt_handle L chip pkt len re), len ≤ (i : Int)) := by
  have hsub := pkt_handle_loads_subset L chip pkt len re
  refine ⟨pkt_handle_run_bad_version L chip pkt len re,
    pkt_handle_run_ar5416 L chip pkt len re, pkt_handle_run_ar9280 L chip pkt len re,
    hsub.1, hsub.2, ?_, ?_⟩
  · intro h4 i hi
    rcases hsub.2 i hi with h | h | h <;> subst h <;> omega
  · intro hle
    exact ⟨0, hsub.1, by omega⟩

/-- Witness for C3 amended: the empty buffer (`len = 0`, zero bytes in memory)
under chip 1 is dispatched to the decoder like any other version-0 frame, and
on the 4-byte truncated frame the load at offset 3, the highest one, is below
the captured length 4. -/
theorem pkt_handle_loads_witness :
    (buffer [] 0 % 256 = 0 ∧ (1 : Int) = sample_lib.CHIP_AR5416 ∧ (4 : Int) ≤ 4 ∧
      3 ∈ loads (pkt_handle sample_lib 1 short_frame 4 stale_entry)) ∧
    pkt_handle sample_lib 1 (buffer []) 0 stale_entry =
      [Event.load 0, Event.load 2, Event.load 3, Event.ar5416_radar_decode 0 0 false,
       Event.pkt_print stale_entry] ∧
    ((3 : Nat) : Int) < 4 :=
  ⟨⟨by decide, by decide, by decide, by decide⟩,
   ((pkt_handle_loads sample_lib 1 (buffer []) 0 stale_entry).2.1 (by decide)
      (by decide)).trans (by decide),
   (pkt_handle_loads sample_lib 1 short_frame 4 stale_entry).2.2.2.2.2.1 (by decide) 3
     (by decide)⟩

/-! ## Chip values without a decoder -/

/-- C5, counterexample: with chip constants 1 and 2, the chip value 0 on a
well-formed version-0 frame prints no diagnostic at all and emits a pulse record
(the indeterminate contents of `re`). -/
theorem unknown_chip_emits_record :
    (0 : Int) ≠ sample_lib.CHIP_AR5416 ∧ (0 : Int) ≠ sample_lib.CHIP_AR9280 ∧
    good_frame 7 0 % 256 = 0 ∧
    pkt_handle sample_lib 0 (good_frame 7) 9 stale_entry =
      [Event.load 0, Event.pkt_print stale_entry] ∧
    records (pkt_handle sample_lib 0 (good_frame 7) 9 stale_entry) = [stale_entry] := by
  decide

/-- C5, amended: a chip value that is neither `CHIP_AR5416` nor `CHIP_AR9280`
raises no unknown-chip error in `pkt_handle`: on a version-0 frame no chip
decoder is invoked and no diagnostic is printed. Such a value is excluded
before any frame is pulled: when `argv[1]` is neither `ar5416` nor `ar9280`,
`main` prints the usage line and exits with status 255. And every run of `main`
either handles no frame and prints no record, or has at least 4 arguments,
obtained a capture handle, and is exactly the loop over the results of that
handle with `CHIP_AR5416` (when `argv[1]` is `ar5416`) or with `CHIP_AR9280`
(when `argv[1]` is `ar9280`), followed by `pcap_close`, with status 0. -/
theorem unknown_chip_excluded_by_main (L : Libradarpkt) (P : Pcap) :
    (∀ (chip : Int) (pkt : Mem) (len : Int) (re : radar_entry),
      pkt 0 % 256 = 0 → chip ≠ L.CHIP_AR5416 → chip ≠ L.CHIP_AR9280 →
        calls_ar5416 (pkt_handle L chip pkt len re) = 0 ∧
        calls_ar9280 (pkt_handle L chip pkt len re) = 0 ∧
        ∀ v, Event.incorrect_version v ∉ pkt_handle L chip pkt len re) ∧
    (∀ argv : List String, argv.getD 1 "" ≠ "ar5416" → argv.getD 1 "" ≠ "ar9280" →
      main L P argv = ([Event.usage], 255)) ∧
    (∀ argv : List String,
      (∃ pulls, obtains P argv pulls ∧ 4 ≤ argv.length ∧
        ((argv.getD 1 "" = "ar5416" ∧
            main L P argv = (main_loop L L.CHIP_AR5416 pulls ++ [Event.pcap_close], 0)) ∨
         (argv.getD 1 "" = "ar9280" ∧
            main L P argv = (main_loop L L.CHIP_AR9280 pulls ++ [Event.pcap_close], 0)))) ∨
      (loads (main L P argv).1 = [] ∧ records (main L P argv).1 = [])) := by
  refine ⟨?_, ?_, ?_⟩
  · intro chip pkt len re hv h5 h9
    simp [pkt_handle, it_version, hv, h5, h9, pkt_print, calls_ar5416, calls_ar9280]
  · intro argv h5 h9
    unfold main
    split_ifs <;> rfl
  · intro argv
    exact main_cases L P argv

/-- Witness for C5 amended: chip value 0 against the constants 1 and 2 on a
well-formed frame, and the command line `pktlog ar5212 file x`. -/
theorem unknown_chip_excluded_by_main_witness :
    (good_frame 7 0 % 256 = 0 ∧ (0 : Int) ≠ sample_lib.CHIP_AR5416 ∧
      (0 : Int) ≠ sample_lib.CHIP_AR9280 ∧
      ["pktlog", "ar5212", "file", "x"].getD 1 "" ≠ "ar5416" ∧
      ["pktlog", "ar5212", "file", "x"].getD 1 "" ≠ "ar9280") ∧
    calls_ar5416 (pkt_handle sample_lib 0 (good_frame 7) 9 stale_entry) = 0 ∧
    calls_ar9280 (pkt_handle sample_lib 0 (good_frame 7) 9 stale_entry) = 0 ∧
    main sample_lib sample_pcap ["pktlog", "ar5212", "file", "x"] = ([Event.usage], 255) :=
  ⟨⟨by decide, by decide, by decide, by decide, by decide⟩,
   ((unknown_chip_excluded_by_main sample_lib sample_pcap).1 0 (good_frame 7) 9 stale_entry
      (by decide) (by decide) (by decide)).1,
   ((unknown_chip_excluded_by_main sample_lib sample_pcap).1 0 (good_frame 7) 9 stale_entry
      (by decide) (by decide) (by decide)).2.1,
   (unknown_chip_excluded_by_main sample_lib sample_pcap).2.1 ["pktlog", "ar5212", "file", "x"]
      (by decide) (by decide)⟩

/-! ## Emission and the decoder report -/

/-- C6, counterexample: on the truncated frame the selected decoder reports
failure, and a record is emitted all the same. -/
theorem record_emitted_on_decoder_failure :
    decoder_reports (pkt_handle sample_lib 1 short_frame 4 stale_entry) = [false] ∧
    records (pkt_handle sample_lib 1 short_frame 4 stale_entry) = [stale_entry] := by
  decide

/-- C6, amended: whether `pkt_handle` emits a record is decided by the version
byte alone, not by what the decoder reported. On a version-0 frame with a
supported chip (the chip constants being distinct) the selected decoder, and
only it, is called once, and after it exactly one record is emitted, `re` as
this decoder left it, whether the decoder reported success or failure; on a
frame with a non-zero version byte no decoder is called and nothing is
emitted. -/
theorem pkt_handle_emits_iff_version_zero (L : Libradarpkt) (chip : Int) (pkt : Mem)
    (len : Int) (re : radar_entry) :
    (pkt 0 % 256 = 0 → chip = L.CHIP_AR5416 →
      ∀ ok : Bool,
        (L.ar5416_radar_decode pkt (it_len pkt) (int32 (len - it_len pkt)) re).ok = ok →
        pkt_handle L chip pkt len re =
          [Event.load 0, Event.load 2, Event.load 3,
           Event.ar5416_radar_decode (it_len pkt) (int32 (len - it_len pkt)) ok,
           Event.pkt_print
             (L.ar5416_radar_decode pkt (it_len pkt) (int32 (len - it_len pkt)) re).re] ∧
        calls_ar5416 (pkt_handle L chip pkt len re) = 1 ∧
        calls_ar9280 (pkt_handle L chip pkt len re) = 0 ∧
        decoder_reports (pkt_handle L chip pkt len re) = [ok] ∧
        records (pkt_handle L chip pkt len re) =
          [(L.ar5416_radar_decode pkt (it_len pkt) (int32 (len - it_len pkt)) re).re]) ∧
    (pkt 0 % 256 = 0 → chip = L.CHIP_AR9280 → L.CHIP_AR5416 ≠ L.CHIP_AR9280 →
      ∀ ok : Bool,
        (L.ar9280_radar_decode pkt (it_len pkt) (int32 (len - it_len pkt)) re).ok = ok →
        pkt_handle L chip pkt len re =
          [Event.load 0, Event.load 2, Event.load 3,
           Event.ar9280_radar_decode (it_len pkt) (int32 (len - it_len pkt)) ok,
           Event.pkt_print
             (L.ar9280_radar_decode pkt (it_len pkt) (int32 (len - it_len pkt)) re).re] ∧
        calls_ar9280 (pkt_handle L chip pkt len re) = 1 ∧
        calls_ar5416 (pkt_handle L chip pkt len re) = 0 ∧
        decoder_reports (pkt_handle L chip pkt len re) = [ok] ∧
        records (pkt_handle L chip pkt len re) =
          [(L.ar9280_radar_decode pkt (it_len pkt) (int32 (len - it_len pkt)) re).re]) ∧
    (pkt 0 % 256 ≠ 0 →
      calls_ar5416 (pkt_handle L chip pkt len re) = 0 ∧
      calls_ar9280 (pkt_handle L chip pkt len re) = 0 ∧
      decoder_reports (pkt_handle L chip pkt len re) = [] ∧
      records (pkt_handle L chip pkt len re) = []) := by
  refine ⟨?_, ?_, ?_⟩
  · intro hv hc ok hok
    have h := pkt_handle_run_ar5416 L chip pkt len re hv hc
    rw [hok] at h
    rw [h]
    exact ⟨rfl, rfl, rfl, rfl, rfl⟩
  · intro hv hc hd ok hok
    have h := pkt_handle_run_ar9280 L chip pkt len re hv hc hd
    rw [hok] at h
    rw [h]
    exact ⟨rfl, rfl, rfl, rfl, rfl⟩
  · intro hv
    rw [pkt_handle_run_bad_version L chip pkt len re hv]
    exact ⟨rfl, rfl, rfl, rfl⟩

/-- Witness for C6 amended: the truncated frame under chip 1, where the sample
decoder reports failure and the stale record is emitted after the call. -/
theorem pkt_handle_emits_iff_version_zero_witness :
    (short_frame 0 % 256 = 0 ∧ (1 : Int) = sample_lib.CHIP_AR5416 ∧
      (sample_lib.ar5416_radar_decode short_frame (it_len short_frame)
        (int32 (4 - it_len short_frame)) stale_entry).ok = false) ∧
    pkt_handle sample_lib 1 short_frame 4 stale_entry =
      [Event.load 0, Event.load 2, Event.load 3, Event.ar5416_radar_decode 8 (-4) false,
       Event.pkt_print stale_entry] ∧
    decoder_reports (pkt_handle sample_lib 1 short_frame 4 stale_entry) = [false] ∧
    records (pkt_handle sample_lib 1 short_frame 4 stale_entry) = [stale_entry] :=
  ⟨⟨by decide, by decide, by decide⟩,
   ((pkt_handle_emits_iff_version_zero sample_lib 1 short_frame 4 stale_entry).1 (by decide)
      (by decide) false (by decide)).1.trans (by decide),
   ((pkt_handle_emits_iff_version_zero sample_lib 1 short_frame 4 stale_entry).1 (by decide)
      (by decide) false (by decide)).2.2.2.1,
   ((pkt_handle_emits_iff_version_zero sample_lib 1 short_frame 4 stale_entry).1 (by decide)
      (by decide) false (by decide)).2.2.2.2.trans (by decide)⟩

/-! ## The record stream of the pipeline -/

/-- C7, counterexample: for the five-frame stream whose frames 1, 3, 5 are
well-formed and whose frames 2, 4 are truncated, five records are emitted, not
three: each truncated frame yields a record too (here the stale contents of
`re`). -/
theorem truncated_frames_yield_records :
    records (main_loop sample_lib 1 stream_with_truncated) =
      [⟨0, 5416, 0, 1⟩, stale_entry, ⟨0, 5416, 0, 3⟩, stale_entry, ⟨0, 5416, 0, 5⟩] ∧
    (records (main_loop sample_lib 1 stream_with_truncated)).length = 5 := by
  decide

/-- C7, amended: with a supported chip, the sequence of records the loop of
`main` emits is, in arrival order, one record for each delivered frame whose
version byte is 0, truncated or not, namely the contents of `re` as the selected
decoder left it, and nothing for delivered frames whose version byte is not 0. -/
theorem main_loop_records (L : Libradarpkt) (chip : Int) (pulls : List Pull)
    (hc : chip = L.CHIP_AR5416 ∨ chip = L.CHIP_AR9280) :
    records (main_loop L chip pulls) =
      ((((pulls.takeWhile (fun p => decide (0 ≤ p.r))).filter (fun p => decide (0 < p.r))).filter
          (fun p => decide (p.pkt 0 % 256 = 0))).map
        (fun p =>
          if chip = L.CHIP_AR5416 then
            (L.ar5416_radar_decode p.pkt (it_len p.pkt)
              (int32 (int32 p.caplen - it_len p.pkt)) p.re).re
          else
            (L.ar9280_radar_decode p.pkt (it_len p.pkt)
              (int32 (int32 p.caplen - it_len p.pkt)) p.re).re)) := by
  induction pulls with
  | nil => rfl
  | cons p ps ih =>
    by_cases h0 : 0 ≤ p.r
    · by_cases h1 : 0 < p.r
      · by_cases hv : p.pkt 0 % 256 = 0
        · simp [main_loop, h0, h1, hv, ih, records_append, records_pkt_handle L chip _ _ _ hc,
            List.takeWhile_cons, List.filter_cons]
        · simp [main_loop, h0, h1, hv, ih, records_append, records_pkt_handle L chip _ _ _ hc,
            List.takeWhile_cons, List.filter_cons]
      · simp [main_loop, h0, h1, ih, records, List.takeWhile_cons, List.filter_cons]
    · simp [main_loop, h0, records, List.takeWhile_cons]

/-- Witness for C7 amended: the five-frame stream whose frames 1, 3, 5 are
well-formed and whose frames 2, 4 are garbage with a non-zero version byte,
under chip 1: exactly three records, those of frames 1, 3, 5 in that order. -/
theorem main_loop_records_witness :
    ((1 : Int) = sample_lib.CHIP_AR5416 ∨ (1 : Int) = sample_lib.CHIP_AR9280) ∧
    records (main_loop sample_lib 1 stream_with_bad_version) =
      [⟨0, 5416, 0, 1⟩, ⟨0, 5416, 0, 3⟩, ⟨0, 5416, 0, 5⟩] :=
  ⟨by decide,
   (main_loop_records sample_lib 1 stream_with_bad_version (by decide)).trans (by decide)⟩

/-! ## Handling the same frame twice -/

/-- C9, counterexample: with the same chip value, the same frame bytes and the
same `len`, the emitted record differs with the indeterminate contents of `re`,
both when the chip value (0) matches no decoder and when the selected decoder
fails without writing; and on an empty frame (`len = 0`) the run differs with
the byte behind the frame. -/
theorem output_not_determined_by_frame :
    records (pkt_handle sample_lib 0 (good_frame 7) 9 zero_entry) ≠
      records (pkt_handle sample_lib 0 (good_frame 7) 9 stale_entry) ∧
    records (pkt_handle sample_lib 1 short_frame 4 zero_entry) ≠
      records (pkt_handle sample_lib 1 short_frame 4 stale_entry) ∧
    pkt_handle sample_lib 1 (buffer []) 0 zero_entry ≠
      pkt_handle sample_lib 1 (buffer [1]) 0 zero_entry := by
  decide

/-- C9, amended: for a frame with `4 ≤ len ≤ INT_MAX`, a supported chip, and
decoders whose result is determined by the frame (no carried state, no
dependence on the prior contents of `re` or on bytes behind the frame), the run
of `pkt_handle` is a function of the chip value, the frame bytes and `len`: two
buffers that agree on the bytes at offsets below `len` give identical runs,
whatever the indeterminate contents of `re` are. -/
theorem pkt_handle_determined_by_frame (L : Libradarpkt) (chip : Int) (pkt1 pkt2 : Mem)
    (len : Int) (re1 re2 : radar_entry)
    (h4 : 4 ≤ len) (hmax : len ≤ 2147483647)
    (hc : chip = L.CHIP_AR5416 ∨ chip = L.CHIP_AR9280)
    (h5416 : frame_determined L.ar5416_radar_decode)
    (h9280 : frame_determined L.ar9280_radar_decode)
    (hagree : ∀ i : Nat, (i : Int) < len → pkt1 i = pkt2 i) :
    pkt_handle L chip pkt1 len re1 = pkt_handle L chip pkt2 len re2 := by
  have e0 : pkt1 0 = pkt2 0 := hagree 0 (by omega)
  have e2 : pkt1 2 = pkt2 2 := hagree 2 (by omega)
  have e3 : pkt1 3 = pkt2 3 := hagree 3 (by omega)
  have ev : it_version pkt1 = it_version pkt2 := by unfold it_version; rw [e0]
  have el : it_len pkt1 = it_len pkt2 := by unfold it_len; rw [e2, e3]
  have hle := it_len_le pkt2
  have hr : int32 (len - it_len pkt2) = len - it_len pkt2 :=
    int32_of_range _ (by omega) (by omega)
  have hag : ∀ i : Nat, (i : Int) < (it_len pkt2 : Int) + (len - it_len pkt2) → pkt1 i = pkt2 i := by
    intro i hi
    exact hagree i (by omega)
  unfold pkt_handle
  rw [ev, el, hr, h5416 pkt1 pkt2 (it_len pkt2) (len - it_len pkt2) re1 re2 hag,
    h9280 pkt1 pkt2 (it_len pkt2) (len - it_len pkt2) re1 re2 hag]
  rcases hc with h | h
  · simp [h]
  · simp [h]

/-- Witness for C9 amended: the well-formed 9-byte frame, once followed in
memory by zero bytes and once by a byte 99, handled with different stack
contents under decoders that always write the whole record. -/
theorem pkt_handle_determined_by_frame_witness :
    ((4 : Int) ≤ 9 ∧ (9 : Int) ≤ 2147483647 ∧
      ((1 : Int) = writing_lib.CHIP_AR5416 ∨ (1 : Int) = writing_lib.CHIP_AR9280) ∧
      frame_determined writing_lib.ar5416_radar_decode ∧
      frame_determined writing_lib.ar9280_radar_decode ∧
      (∀ i : Nat, (i : Int) < 9 → good_frame 7 i = good_frame_then_junk i)) ∧
    pkt_handle writing_lib 1 (good_frame 7) 9 zero_entry =
      pkt_handle writing_lib 1 good_frame_then_junk 9 stale_entry :=
  have hagree : ∀ i : Nat, (i : Int) < 9 → good_frame 7 i = good_frame_then_junk i := by
    intro i hi
    have hi9 : i < 9 := by omega
    interval_cases i <;> rfl
  ⟨⟨by decide, by decide, by decide, writing_decode_frame_determined 5416,
     writing_decode_frame_determined 9280, hagree⟩,
   pkt_handle_determined_by_frame writing_lib 1 (good_frame 7) good_frame_then_junk 9
     zero_entry stale_entry (by decide) (by decide) (by decide)
     (writing_decode_frame_determined 5416) (writing_decode_frame_determined 9280) hagree⟩

end Pktlog
